import Mathlib

/-!
Verification development for the PCF (Cloud Foundry) certificate-based
auth plugin login/renew path (path_login.go).

The handler code from path_login.go is embedded as executable Lean
definitions.  External collaborators (storage, the signatures, util and
models packages, the PCF inventory API client) are passed in through a
record of functions so that theorems quantify over their behaviour;
where a claim depends on the behaviour of repository code that is not
part of the provided sources, a concrete model is defined whose doc
comment starts with "Modelled from the spec:".

Machine times and durations are modelled as integers (an abstract tick
count); Go time.Time.Before/After are strict < / > on those integers.
-/

/-! ## IPv4 addresses: model of Go net.IP restricted to dotted-quad form -/

/-- An IPv4 address, four octets. Models a (non-nil) Go net.IP as used by
the certificate identity. -/
structure IPv4 where
  a : Fin 256
  b : Fin 256
  c : Fin 256
  d : Fin 256
  deriving DecidableEq

/-- Splits a character list on the dot character; models strings.Split
on a dotted quad (Go strings.Split never returns an empty slice). -/
def splitOnDot : List Char → List (List Char)
  | [] => [[]]
  | ch :: rest =>
    if ch = '.' then [] :: splitOnDot rest
    else
      match splitOnDot rest with
      | [] => [[ch]]
      | p :: ps => (ch :: p) :: ps

/-- Numeric value of a digit string. -/
def digitsVal (cs : List Char) : Nat :=
  cs.foldl (fun acc ch => acc * 10 + (ch.toNat - 48)) 0

/-- Parses one decimal octet of a dotted quad; models the per-field
parsing of Go net.ParseIP (all digits, value at most 255). -/
def parseByte (cs : List Char) : Option (Fin 256) :=
  if cs = [] then none
  else if cs.all Char.isDigit then
    if h : digitsVal cs < 256 then some ⟨digitsVal cs, h⟩ else none
  else none

/-- Parses a dotted-quad IPv4 address from characters; models Go
net.ParseIP restricted to its IPv4 branch (a failed parse is Go's nil
IP, here none). -/
def parseIPv4Chars (cs : List Char) : Option IPv4 :=
  match splitOnDot cs with
  | [p1, p2, p3, p4] =>
    match parseByte p1, parseByte p2, parseByte p3, parseByte p4 with
    | some x, some y, some z, some w => some ⟨x, y, z, w⟩
    | _, _, _, _ => none
  | _ => none

/-- Parses a string as an IPv4 address; models Go net.ParseIP. -/
def parseIPv4 (s : String) : Option IPv4 :=
  parseIPv4Chars s.data

/-- Decimal digits of one octet. -/
def byteChars (n : Nat) : List Char :=
  if n < 10 then [Char.ofNat (48 + n)]
  else if n < 100 then [Char.ofNat (48 + n / 10), Char.ofNat (48 + n % 10)]
  else [Char.ofNat (48 + n / 100), Char.ofNat (48 + n / 10 % 10), Char.ofNat (48 + n % 10)]

/-- Characters of the dotted-quad rendering of an IPv4 address. -/
def renderIPChars (ip : IPv4) : List Char :=
  byteChars ip.a.val ++ ('.' :: (byteChars ip.b.val ++ ('.' :: (byteChars ip.c.val ++ ('.' :: byteChars ip.d.val)))))

/-- Dotted-quad rendering; models Go net.IP.String for an IPv4 address
(used at login to store the certificate IP into session metadata). -/
def renderIP (ip : IPv4) : String :=
  String.mk (renderIPChars ip)

/-! ## Data model -/

/-- Configuration (models.Configuration): trusted CA certificates and
the replay-window bounds.  Certificates are opaque tokens. -/
structure Configuration where
  identityCACertificates : List String
  loginMaxSecOld : Int
  loginMaxSecAhead : Int
  deriving DecidableEq

/-- Role (models.RoleEntry): allow-lists and network constraints. -/
structure RoleEntry where
  boundInstanceIDs : List String
  boundAppIDs : List String
  boundOrgIDs : List String
  boundSpaceIDs : List String
  tokenBoundCIDRs : List String
  disableIPMatching : Bool
  tokenTTL : Int
  tokenMaxTTL : Int
  tokenPeriod : Int
  deriving DecidableEq

/-- The decoded certificate identity (models.PCFCertificate). -/
structure PCFCertificate where
  instanceID : String
  appID : String
  orgID : String
  spaceID : String
  ipAddress : IPv4
  deriving DecidableEq

/-- The payload a login signature covers (signatures.SignatureData):
signing time, role name and the exact certificate bundle text. -/
structure SignatureData where
  signingTime : Int
  role : String
  cfInstanceCertContents : String
  deriving DecidableEq

/-- Symbolic signature value.  The handler treats the signature string
as opaque: it is only compared against the empty string and handed to
signatures.Verify.  A signature is therefore modelled as either the
empty string or a term recording which key produced it and over which
payload. -/
inductive Sig where
  | empty : Sig
  | mk (key : String) (payload : SignatureData) : Sig
  deriving DecidableEq

/-- App record returned by the PCF API (client.AppByGuid). -/
structure AppRecord where
  guid : String
  spaceGuid : String
  instances : Int
  deriving DecidableEq

/-- Org record returned by the PCF API (client.GetOrgByGuid). -/
structure OrgRecord where
  guid : String
  deriving DecidableEq

/-- Space record returned by the PCF API (client.GetSpaceByGuid). -/
structure SpaceRecord where
  guid : String
  organizationGuid : String
  deriving DecidableEq

/-- The PCF inventory API client (external collaborator): each lookup
may fail with a transport error. -/
structure PCFClient where
  appByGuid : String → Except String AppRecord
  getOrgByGuid : String → Except String OrgRecord
  getSpaceByGuid : String → Except String SpaceRecord

/-- Connection information attached to the request. -/
structure Connection where
  remoteAddr : String
  deriving DecidableEq

/-- The auth object issued on success (logical.Auth): the metadata maps
persisted for renewal, the alias, and the token parameters populated
from the role. -/
structure Auth where
  internalData : List (String × String)
  displayName : String
  aliasName : String
  aliasMetadata : List (String × String)
  ttl : Int
  maxTTL : Int
  period : Int
  deriving DecidableEq

/-- Errors surfaced through logical.ErrorResponse during validation
(b.validate); each constructor corresponds to one fmt.Errorf site. -/
inductive ValidateErr where
  | ipMismatch
  | instanceConstraint (certVal : String) (constraints : List String)
  | appConstraint (certVal : String) (constraints : List String)
  | orgConstraint (certVal : String) (constraints : List String)
  | spaceConstraint (certVal : String) (constraints : List String)
  | clientInitErr (msg : String)
  | appLookupErr (msg : String)
  | appGuidMismatch (certID apiID : String)
  | appSpaceMismatch (certID apiID : String)
  | noLiveInstances
  | orgLookupErr (msg : String)
  | orgGuidMismatch (certID apiID : String)
  | spaceLookupErr (msg : String)
  | spaceGuidMismatch (certID apiID : String)
  | spaceOrgMismatch (certID apiID : String)
  deriving DecidableEq

/-- Errors surfaced through logical.ErrorResponse in the login handler;
each constructor corresponds to one ErrorResponse site in
operationLoginUpdate. -/
inductive LoginErr where
  | inputMissing (field : String)
  | timeParseError (msg : String)
  | requestTooOld (signingTime timeReceived maxSecOld : Int)
  | requestTooFarInFuture (signingTime timeReceived maxSecAhead : Int)
  | certExtractError (msg : String)
  | signatureError (msg : String)
  | chainError (msg : String)
  | validateErr (e : ValidateErr)
  deriving DecidableEq

/-- Outcome of one login call.  fatal models a non-nil Go error return
(internal failure), denied models logical.ErrPermissionDenied, errResp
models logical.ErrorResponse, crash models a nil-pointer dereference in
the handler, success carries the issued Auth. -/
inductive LoginResult where
  | fatal (msg : String)
  | denied
  | errResp (e : LoginErr)
  | crash
  | success (auth : Auth)
  deriving DecidableEq

/-- Outcome of one renew call. -/
inductive RenewResult where
  | fatal (msg : String)
  | errResp (e : ValidateErr)
  | crash
  | success (auth : Auth)
  deriving DecidableEq

/-- The states of the login flow, in the order the handler reaches
them; used to record the trace of a call. -/
inductive Step where
  | receivedTime
  | roleResolved
  | cidrChecked
  | signatureRead
  | configResolved
  | timeWindowChecked
  | certsExtracted
  | signatureVerified
  | chainValidated
  | identityDecoded
  | constraintsChecked
  | inventoryCrossChecked
  | issued
  deriving DecidableEq

/-- External collaborators of the handler: storage reads, the stdlib
time parsers, and the repository packages (util, signatures, models)
the handler calls into. -/
structure LoginEnv where
  getRole : String → Except String (Option RoleEntry)
  getConfig : Except String (Option Configuration)
  remoteAddrIsOk : String → List String → Bool
  parseISO8601 : String → Option Int
  parseBashTime : String → Option Int
  extractCertificates : String → Except String (Option String × String)
  verify : Sig → SignatureData → Except String String
  validateChain : List String → Option String → String → String → Except String Unit
  newPCFCertificateFromx509 : String → Except String PCFCertificate
  newPCFClient : Configuration → Except String PCFClient

/-- One login request as the handler sees it: the four request fields,
the receipt time captured on entry, and the connection. -/
structure LoginRequest where
  roleName : String
  cfInstanceCert : String
  signingTimeRaw : String
  signature : Sig
  timeReceived : Int
  connection : Option Connection

/-- One renew request: the stored auth object and the connection. -/
structure RenewRequest where
  auth : Auth
  connection : Option Connection

/-! ## Pure helpers from path_login.go -/

/-- meetsBoundConstraints from path_login.go: an empty allow-list is
unrestricted, otherwise the value must be listed
(strutil.StrListContains). -/
def meetsBoundConstraints (certValue : String) (constraints : List String) : Bool :=
  if constraints.isEmpty then true
  else constraints.contains certValue

/-- The remote address up to the first slash; models parts[0] of
strings.Split(remoteAddr, "/") in matchesIPAddress. -/
def stripMask (remoteAddr : String) : String :=
  String.mk (remoteAddr.data.takeWhile (fun ch => ch != '/'))

/-- matchesIPAddress from path_login.go: strip any subnet-mask suffix,
parse, and compare against the certificate IP (net.IP.Equal). -/
def matchesIPAddress (remoteAddr : String) (certIP : IPv4) : Bool :=
  match parseIPv4 (stripMask remoteAddr) with
  | some reqIP => decide (certIP = reqIP)
  | none => false

/-- parseTime from path_login.go: try the ISO-8601 format, then the
Bash default format, first match wins. -/
def parseTime (env : LoginEnv) (signingTime : String) : Except String Int :=
  match env.parseISO8601 signingTime with
  | some t => .ok t
  | none =>
    match env.parseBashTime signingTime with
    | some t => .ok t
    | none => .error ("could not parse " ++ signingTime)

/-- The replay-window check of operationLoginUpdate: rejects a signing
time strictly before timeReceived - maxSecOld (too old) or strictly
after timeReceived + maxSecAhead (too far in the future); the errors
carry the offending timestamps and the configured bound. -/
def timeWindowCheck (signingTime timeReceived maxSecOld maxSecAhead : Int) : Option LoginErr :=
  if signingTime < timeReceived - maxSecOld then
    some (.requestTooOld signingTime timeReceived maxSecOld)
  else if timeReceived + maxSecAhead < signingTime then
    some (.requestTooFarInFuture signingTime timeReceived maxSecAhead)
  else none

/-- getOrErr from path_login.go, map[string]interface i branch: the
field must be present and hold a non-empty string. -/
def getOrErrI (fieldName : String) (m : List (String × String)) : Except String String :=
  match m.lookup fieldName with
  | none => .error ("unable to retrieve " ++ fieldName ++ " during renewal")
  | some v =>
    if v = "" then .error ("unable to retrieve " ++ fieldName ++ " during renewal, not a string")
    else .ok v

/-- getOrErr from path_login.go, map[string]string branch: the field
must be present. -/
def getOrErrS (fieldName : String) (m : List (String × String)) : Except String String :=
  match m.lookup fieldName with
  | none => .error ("unable to retrieve " ++ fieldName ++ " during renewal")
  | some v => .ok v

/-! ## b.validate: constraint matching and the inventory cross-check -/

/-- The constraint-matching half of b.validate: IP match unless
disabled, then the four bound allow-lists in source order. -/
def validateConstraints (role : RoleEntry) (pcfCert : PCFCertificate) (reqConnRemoteAddr : String) : Except ValidateErr Unit :=
  if role.disableIPMatching = false ∧ matchesIPAddress reqConnRemoteAddr pcfCert.ipAddress = false then
    .error .ipMismatch
  else if meetsBoundConstraints pcfCert.instanceID role.boundInstanceIDs = false then
    .error (.instanceConstraint pcfCert.instanceID role.boundInstanceIDs)
  else if meetsBoundConstraints pcfCert.appID role.boundAppIDs = false then
    .error (.appConstraint pcfCert.appID role.boundAppIDs)
  else if meetsBoundConstraints pcfCert.orgID role.boundOrgIDs = false then
    .error (.orgConstraint pcfCert.orgID role.boundOrgIDs)
  else if meetsBoundConstraints pcfCert.spaceID role.boundSpaceIDs = false then
    .error (.spaceConstraint pcfCert.spaceID role.boundSpaceIDs)
  else .ok ()

/-- The inventory half of b.validate: app lookup (guid, parent space,
live instances), org lookup (guid), space lookup (guid, parent org), in
source order; any transport error or mismatch rejects. -/
def validateInventory (client : PCFClient) (pcfCert : PCFCertificate) : Except ValidateErr Unit :=
  match client.appByGuid pcfCert.appID with
  | .error e => .error (.appLookupErr e)
  | .ok app =>
    if app.guid ≠ pcfCert.appID then .error (.appGuidMismatch pcfCert.appID app.guid)
    else if app.spaceGuid ≠ pcfCert.spaceID then .error (.appSpaceMismatch pcfCert.spaceID app.spaceGuid)
    else if app.instances ≤ 0 then .error .noLiveInstances
    else
      match client.getOrgByGuid pcfCert.orgID with
      | .error e => .error (.orgLookupErr e)
      | .ok org =>
        if org.guid ≠ pcfCert.orgID then .error (.orgGuidMismatch pcfCert.orgID org.guid)
        else
          match client.getSpaceByGuid pcfCert.spaceID with
          | .error e => .error (.spaceLookupErr e)
          | .ok space =>
            if space.guid ≠ pcfCert.spaceID then .error (.spaceGuidMismatch pcfCert.spaceID space.guid)
            else if space.organizationGuid ≠ pcfCert.orgID then .error (.spaceOrgMismatch pcfCert.orgID space.organizationGuid)
            else .ok ()

/-- b.validate from path_login.go: constraint matching, then client
construction, then the inventory cross-check. -/
def validate (env : LoginEnv) (config : Configuration) (role : RoleEntry) (pcfCert : PCFCertificate) (reqConnRemoteAddr : String) : Except ValidateErr Unit :=
  match validateConstraints role pcfCert reqConnRemoteAddr with
  | .error e => .error e
  | .ok _ =>
    match env.newPCFClient config with
    | .error e => .error (.clientInitErr e)
    | .ok client => validateInventory client pcfCert

/-! ## Modelled collaborators

The signatures and models packages are repository code outside the
provided sources; the definitions below model them from the spec and
are used to instantiate LoginEnv. -/

/-- The single generic message signature verification fails with. -/
def signatureInvalidMsg : String := "signature is invalid"

/-- Modelled from the spec: signatures.Verify (SignatureVerifier,
spec 4.2).  Recomputes the expected signed payload from the presented
signing time, role name and certificate bundle text, and checks that
the supplied signature was produced by the identity certificate key
over exactly that payload; on success returns the signing certificate.
It fails with one generic error for any reason — wrong key, tampered
payload, malformed encoding — with no distinguishing detail.  keyOf
gives the public key embedded in the presented bundle, certOf the
identity certificate extracted from it. -/
def signaturesVerify (keyOf : String → String) (certOf : String → String) (sig : Sig) (d : SignatureData) : Except String String :=
  if sig = Sig.mk (keyOf d.cfInstanceCertContents) d then .ok (certOf d.cfInstanceCertContents)
  else .error signatureInvalidMsg

/-- Modelled from the spec: models.NewPCFCertificate (IdentityExtractor
on stored metadata, spec 4.4).  Builds the identity from the stored
strings; fails if a required field is absent (empty) or the IP address
string cannot be parsed. -/
def newPCFCertificate (instanceID orgID spaceID appID ipAddress : String) : Except String PCFCertificate :=
  if instanceID = "" ∨ orgID = "" ∨ spaceID = "" ∨ appID = "" then
    .error "identity field missing"
  else
    match parseIPv4 ipAddress with
    | none => .error "identity field missing: unparsable IP address"
    | some ip => .ok ⟨instanceID, appID, orgID, spaceID, ip⟩

/-! ## operationLoginUpdate

The login handler, phrased as a chain of phases.  Each phase returns
the list of states reached from that point on together with the final
outcome; a caller prepends the state it has just completed.  The phase
boundaries follow the source lines of operationLoginUpdate top to
bottom; b.validate is inlined into its two halves so the trace records
the constraint check and the inventory cross-check separately. -/

/-- The coarse CIDR check (lines 92-100): only run when the role lists
bound CIDRs; fails closed when no connection information is present. -/
def checkCIDR (env : LoginEnv) (req : LoginRequest) (role : RoleEntry) : Option LoginResult :=
  if role.tokenBoundCIDRs.isEmpty then none
  else
    match req.connection with
    | none => some .denied
    | some conn =>
      if env.remoteAddrIsOk conn.remoteAddr role.tokenBoundCIDRs then none
      else some .denied

/-- The metadata maps and auth object built on full success
(lines 178-195); role.PopulateTokenAuth sets the token parameters. -/
def mkAuth (roleName : String) (role : RoleEntry) (pcfCert : PCFCertificate) : Auth :=
  { internalData := [("role", roleName), ("instance_id", pcfCert.instanceID), ("ip_address", renderIP pcfCert.ipAddress)]
  , displayName := pcfCert.instanceID
  , aliasName := pcfCert.appID
  , aliasMetadata := [("org_id", pcfCert.orgID), ("app_id", pcfCert.appID), ("space_id", pcfCert.spaceID)]
  , ttl := role.tokenTTL
  , maxTTL := role.tokenMaxTTL
  , period := role.tokenPeriod }

/-- Client construction and the inventory cross-check (lines 280-324),
then issuance. -/
def afterConstraints (env : LoginEnv) (req : LoginRequest) (role : RoleEntry) (config : Configuration) (pcfCert : PCFCertificate) : List Step × LoginResult :=
  match env.newPCFClient config with
  | .error e => ([], .errResp (.validateErr (.clientInitErr e)))
  | .ok client =>
    match validateInventory client pcfCert with
    | .error e => ([], .errResp (.validateErr e))
    | .ok _ => ([Step.inventoryCrossChecked, Step.issued], .success (mkAuth req.roleName role pcfCert))

/-- The b.validate call (line 173): the remote address is read off the
connection (nil dereference if absent), then constraints are matched. -/
def afterDecode (env : LoginEnv) (req : LoginRequest) (role : RoleEntry) (config : Configuration) (pcfCert : PCFCertificate) : List Step × LoginResult :=
  match req.connection with
  | none => ([], .crash)
  | some conn =>
    match validateConstraints role pcfCert conn.remoteAddr with
    | .error e => ([], .errResp (.validateErr e))
    | .ok _ =>
      (Step.constraintsChecked :: (afterConstraints env req role config pcfCert).1,
       (afterConstraints env req role config pcfCert).2)

/-- Identity decoding (lines 161-164): a failure here is returned as a
Go error, not an ErrorResponse. -/
def afterChain (env : LoginEnv) (req : LoginRequest) (role : RoleEntry) (config : Configuration) (signingCert : String) : List Step × LoginResult :=
  match env.newPCFCertificateFromx509 signingCert with
  | .error e => ([], .fatal e)
  | .ok pcfCert =>
    (Step.identityDecoded :: (afterDecode env req role config pcfCert).1,
     (afterDecode env req role config pcfCert).2)

/-- Trust-chain validation (lines 155-158). -/
def afterVerify (env : LoginEnv) (req : LoginRequest) (role : RoleEntry) (config : Configuration) (intermediateCert : Option String) (identityCert : String) (signingCert : String) : List Step × LoginResult :=
  match env.validateChain config.identityCACertificates intermediateCert identityCert signingCert with
  | .error e => ([], .errResp (.chainError e))
  | .ok _ =>
    (Step.chainValidated :: (afterChain env req role config signingCert).1,
     (afterChain env req role config signingCert).2)

/-- Signature verification (lines 144-154). -/
def afterCerts (env : LoginEnv) (req : LoginRequest) (role : RoleEntry) (signingTime : Int) (config : Configuration) (intermediateCert : Option String) (identityCert : String) : List Step × LoginResult :=
  match env.verify req.signature { signingTime := signingTime, role := req.roleName, cfInstanceCertContents := req.cfInstanceCert } with
  | .error e => ([], .errResp (.signatureError e))
  | .ok signingCert =>
    (Step.signatureVerified :: (afterVerify env req role config intermediateCert identityCert signingCert).1,
     (afterVerify env req role config intermediateCert identityCert signingCert).2)

/-- Certificate extraction (lines 139-142). -/
def afterWindow (env : LoginEnv) (req : LoginRequest) (role : RoleEntry) (signingTime : Int) (config : Configuration) : List Step × LoginResult :=
  match env.extractCertificates req.cfInstanceCert with
  | .error e => ([], .errResp (.certExtractError e))
  | .ok (intermediateCert, identityCert) =>
    (Step.certsExtracted :: (afterCerts env req role signingTime config intermediateCert identityCert).1,
     (afterCerts env req role signingTime config intermediateCert identityCert).2)

/-- The replay-window check (lines 129-137). -/
def afterConfig (env : LoginEnv) (req : LoginRequest) (role : RoleEntry) (signingTime : Int) (config : Configuration) : List Step × LoginResult :=
  match timeWindowCheck signingTime req.timeReceived config.loginMaxSecOld config.loginMaxSecAhead with
  | some e => ([], .errResp e)
  | none =>
    (Step.timeWindowChecked :: (afterWindow env req role signingTime config).1,
     (afterWindow env req role signingTime config).2)

/-- Configuration resolution (lines 121-127). -/
def afterInputs (env : LoginEnv) (req : LoginRequest) (role : RoleEntry) (signingTime : Int) : List Step × LoginResult :=
  match env.getConfig with
  | .error e => ([], .fatal e)
  | .ok none => ([], .fatal "no CA is configured for verifying client certificates")
  | .ok (some config) =>
    (Step.configResolved :: (afterConfig env req role signingTime config).1,
     (afterConfig env req role signingTime config).2)

/-- Reading and parsing the remaining request fields (lines 102-119). -/
def afterCIDR (env : LoginEnv) (req : LoginRequest) (role : RoleEntry) : List Step × LoginResult :=
  if req.signature = Sig.empty then ([], .errResp (.inputMissing "signature"))
  else if req.cfInstanceCert = "" then ([], .errResp (.inputMissing "cf_instance_cert"))
  else if req.signingTimeRaw = "" then ([], .errResp (.inputMissing "signing_time"))
  else
    match parseTime env req.signingTimeRaw with
    | .error e => ([], .errResp (.timeParseError e))
    | .ok signingTime =>
      (Step.signatureRead :: (afterInputs env req role signingTime).1,
       (afterInputs env req role signingTime).2)

/-- The coarse CIDR check in sequence (lines 92-100). -/
def afterRole (env : LoginEnv) (req : LoginRequest) (role : RoleEntry) : List Step × LoginResult :=
  match checkCIDR env req role with
  | some res => ([], res)
  | none =>
    (Step.cidrChecked :: (afterCIDR env req role).1, (afterCIDR env req role).2)

/-- Role-name read and role resolution (lines 78-90). -/
def afterReceived (env : LoginEnv) (req : LoginRequest) : List Step × LoginResult :=
  if req.roleName = "" then ([], .errResp (.inputMissing "role-name"))
  else
    match env.getRole req.roleName with
    | .error e => ([], .fatal e)
    | .ok none => ([], .fatal "no matching role")
    | .ok (some role) =>
      (Step.roleResolved :: (afterRole env req role).1, (afterRole env req role).2)

/-- operationLoginUpdate from path_login.go: the whole login handler.
The first component is the list of states reached, the second the
outcome. -/
def operationLoginUpdate (env : LoginEnv) (req : LoginRequest) : List Step × LoginResult :=
  (Step.receivedTime :: (afterReceived env req).1, (afterReceived env req).2)

/-! ## pathLoginRenew -/

/-- The stored fields the renewal reads back, in source order. -/
structure RenewFields where
  instanceID : String
  ipAddr : String
  orgID : String
  spaceID : String
  appID : String
  deriving DecidableEq

/-- The five stored-metadata reads of pathLoginRenew (lines 224-247):
instance_id and ip_address from internal data, org_id, space_id and
app_id from the alias metadata. -/
def renewFetchFields (internal aliasMeta : List (String × String)) : Except String RenewFields :=
  match getOrErrI "instance_id" internal with
  | .error e => .error e
  | .ok instanceID =>
    match getOrErrI "ip_address" internal with
    | .error e => .error e
    | .ok ipAddr =>
      match getOrErrS "org_id" aliasMeta with
      | .error e => .error e
      | .ok orgID =>
        match getOrErrS "space_id" aliasMeta with
        | .error e => .error e
        | .ok spaceID =>
          match getOrErrS "app_id" aliasMeta with
          | .error e => .error e
          | .ok appID => .ok ⟨instanceID, ipAddr, orgID, spaceID, appID⟩

/-- The identity the renewal evaluates: the stored fields fed back
through models.NewPCFCertificate (line 250). -/
def renewReconstructIdentity (internal aliasMeta : List (String × String)) : Except String PCFCertificate :=
  match renewFetchFields internal aliasMeta with
  | .error e => .error e
  | .ok f => newPCFCertificate f.instanceID f.orgID f.spaceID f.appID f.ipAddr

/-- pathLoginRenew from path_login.go.  The error returned by
models.NewPCFCertificate at line 250 is discarded by the source (the
next line declares a fresh err inside the if statement, shadowing it),
so a failed reconstruction proceeds into b.validate with a nil
certificate and the handler dereferences it: that outcome is crash. -/
def pathLoginRenew (env : LoginEnv) (req : RenewRequest) : RenewResult :=
  match env.getConfig with
  | .error e => .fatal e
  | .ok none => .fatal "no configuration is available for reaching the PCF API"
  | .ok (some config) =>
    match getOrErrI "role" req.auth.internalData with
    | .error e => .fatal e
    | .ok roleName =>
      match env.getRole roleName with
      | .error e => .fatal e
      | .ok none => .fatal "no matching role"
      | .ok (some role) =>
        match renewFetchFields req.auth.internalData req.auth.aliasMetadata with
        | .error e => .fatal e
        | .ok f =>
          match req.connection with
          | none => .crash
          | some conn =>
            match newPCFCertificate f.instanceID f.orgID f.spaceID f.appID f.ipAddr with
            | .error _ => .crash
            | .ok pcfCert =>
              match validate env config role pcfCert conn.remoteAddr with
              | .error e => .errResp e
              | .ok _ =>
                .success { req.auth with ttl := role.tokenTTL, maxTTL := role.tokenMaxTTL, period := role.tokenPeriod }

/-! ## Step orderings -/

/-- The order in which the source reaches the login states (signature,
certificate and signing-time reads precede configuration resolution,
which precedes the replay-window check). -/
def loginStepOrder : List Step :=
  [Step.receivedTime, Step.roleResolved, Step.cidrChecked, Step.signatureRead,
   Step.configResolved, Step.timeWindowChecked, Step.certsExtracted,
   Step.signatureVerified, Step.chainValidated, Step.identityDecoded,
   Step.constraintsChecked, Step.inventoryCrossChecked, Step.issued]

/-- The order asserted by the spec's state machine, with the
time-window check ahead of configuration resolution. -/
def claimedStepOrder : List Step :=
  [Step.receivedTime, Step.roleResolved, Step.cidrChecked, Step.signatureRead,
   Step.timeWindowChecked, Step.configResolved, Step.certsExtracted,
   Step.signatureVerified, Step.chainValidated, Step.identityDecoded,
   Step.constraintsChecked, Step.inventoryCrossChecked, Step.issued]

/-- Decidable check that one step list is an initial segment of
another. -/
def isPrefixB : List Step → List Step → Bool
  | [], _ => true
  | _ :: _, [] => false
  | x :: xs, y :: ys => if x = y then isPrefixB xs ys else false

/-! ## Concrete sample collaborators for witnesses -/

/-- Key embedded in a presented certificate bundle (sample). -/
def keyOfSample (certContents : String) : String := "key-of " ++ certContents

/-- Identity certificate extracted from a presented bundle (sample). -/
def certOfSample (certContents : String) : String := "cert-of " ++ certContents

/-- A sample configuration: one trusted CA, five minutes of allowed
age, one minute of allowed future skew. -/
def okConfig : Configuration :=
  { identityCACertificates := ["ca-cert"], loginMaxSecOld := 300, loginMaxSecAhead := 60 }

/-- A sample app record matching the sample certificate. -/
def okApp : AppRecord := { guid := "app-1", spaceGuid := "space-1", instances := 1 }

/-- A sample inventory client agreeing with the sample certificate. -/
def okClient : PCFClient :=
  { appByGuid := fun g => if g = "app-1" then .ok okApp else .error "app not found"
  , getOrgByGuid := fun g => if g = "org-1" then .ok { guid := "org-1" } else .error "org not found"
  , getSpaceByGuid := fun g =>
      if g = "space-1" then .ok { guid := "space-1", organizationGuid := "org-1" }
      else .error "space not found" }

/-- The sample certificate identity. -/
def okCert : PCFCertificate :=
  { instanceID := "inst-1", appID := "app-1", orgID := "org-1", spaceID := "space-1"
  , ipAddress := { a := 10, b := 0, c := 0, d := 1 } }

/-- An unrestricted sample role. -/
def okRole : RoleEntry :=
  { boundInstanceIDs := [], boundAppIDs := [], boundOrgIDs := [], boundSpaceIDs := []
  , tokenBoundCIDRs := [], disableIPMatching := false
  , tokenTTL := 3600, tokenMaxTTL := 7200, tokenPeriod := 0 }

/-- The payload the sample client signed. -/
def okSigData : SignatureData :=
  { signingTime := 1000, role := "test-role", cfInstanceCertContents := "pem-bundle" }

/-- A sample environment on which the whole login flow succeeds. -/
def okEnv : LoginEnv :=
  { getRole := fun n => if n = "test-role" then .ok (some okRole) else .ok none
  , getConfig := .ok (some okConfig)
  , remoteAddrIsOk := fun _ _ => true
  , parseISO8601 := fun s => if s = "2019-01-01T00:16:40Z" then some 1000 else none
  , parseBashTime := fun _ => none
  , extractCertificates := fun s =>
      if s = "pem-bundle" then .ok (some "intermediate-cert", certOfSample "pem-bundle")
      else .error "malformed certificate"
  , verify := signaturesVerify keyOfSample certOfSample
  , validateChain := fun cas _ _ signingCert =>
      if cas = ["ca-cert"] ∧ signingCert = certOfSample "pem-bundle" then .ok ()
      else .error "untrusted certificate"
  , newPCFCertificateFromx509 := fun c =>
      if c = certOfSample "pem-bundle" then .ok okCert else .error "cannot decode identity"
  , newPCFClient := fun _ => .ok okClient }

/-- A sample request carrying a correctly signed payload. -/
def okReq : LoginRequest :=
  { roleName := "test-role"
  , cfInstanceCert := "pem-bundle"
  , signingTimeRaw := "2019-01-01T00:16:40Z"
  , signature := Sig.mk (keyOfSample "pem-bundle") okSigData
  , timeReceived := 1000
  , connection := some { remoteAddr := "10.0.0.1" } }

/-- The auth object the sample login issues. -/
def okAuth : Auth := mkAuth "test-role" okRole okCert

/-- The payload of a tampered request: the client signed a different
role name than it presents. -/
def tamperedSigData : SignatureData :=
  { signingTime := 1000, role := "other-role", cfInstanceCertContents := "pem-bundle" }

/-- A request whose signature covers tamperedSigData while presenting
okSigData's fields. -/
def tamperedReq : LoginRequest :=
  { okReq with signature := Sig.mk (keyOfSample "pem-bundle") tamperedSigData }

/-- A role that lists bound CIDRs. -/
def cidrRole : RoleEntry := { okRole with tokenBoundCIDRs := ["10.0.0.0/24"] }

/-- The sample environment serving cidrRole. -/
def okEnvCIDR : LoginEnv :=
  { okEnv with getRole := fun n => if n = "test-role" then .ok (some cidrRole) else .ok none }

/-- The sample request without connection information. -/
def okReqNoConn : LoginRequest := { okReq with connection := none }

/-- Stored renewal metadata whose ip_address does not parse. -/
def badRenewAuth : Auth :=
  { internalData := [("role", "test-role"), ("instance_id", "inst-1"), ("ip_address", "not-an-ip")]
  , displayName := "inst-1"
  , aliasName := "app-1"
  , aliasMetadata := [("org_id", "org-1"), ("app_id", "app-1"), ("space_id", "space-1")]
  , ttl := 0, maxTTL := 0, period := 0 }

/-- Stored renewal metadata missing the instance_id field. -/
def missingRenewAuth : Auth :=
  { badRenewAuth with internalData := [("role", "test-role"), ("ip_address", "10.0.0.1")] }

/-- An inventory client whose lookups all fail with a transport
error. -/
def downClient : PCFClient :=
  { appByGuid := fun _ => .error "connection refused"
  , getOrgByGuid := fun _ => .error "connection refused"
  , getSpaceByGuid := fun _ => .error "connection refused" }

/-- The sample inventory client, but the app has no live instances. -/
def zeroClient : PCFClient :=
  { okClient with
    appByGuid := fun g => if g = "app-1" then .ok { okApp with instances := 0 } else .error "app not found" }

/-- A role binding the allowed app IDs to app-1 only. -/
def roleApp1 : RoleEntry := { okRole with boundAppIDs := ["app-1"] }

/-- The sample certificate, but issued for app-2. -/
def certApp2 : PCFCertificate := { okCert with appID := "app-2" }
/-! ## Helper lemmas -/

set_option maxRecDepth 4096 in
/-- Parsing inverts rendering on each octet. -/
lemma parseByte_byteChars : ∀ n : Fin 256, parseByte (byteChars n.val) = some n := by
  decide

set_option maxRecDepth 4096 in
/-- A rendered octet contains no dot. -/
lemma dot_not_mem_byteChars : ∀ n : Fin 256, '.' ∉ byteChars n.val := by
  decide

/-- Splitting at the first dot of an appended dot. -/
lemma splitOnDot_append (l r : List Char) (h : '.' ∉ l) :
    splitOnDot (l ++ '.' :: r) = l :: splitOnDot r := by
  induction l with
  | nil => simp [splitOnDot]
  | cons c cs ih =>
    have hc : c ≠ '.' := fun hc => h (hc ▸ List.mem_cons_self c cs)
    have hcs : '.' ∉ cs := fun hm => h (List.mem_cons_of_mem c hm)
    simp only [List.cons_append, splitOnDot, if_neg hc, List.append_eq]
    rw [ih hcs]

/-- Splitting a dot-free list. -/
lemma splitOnDot_no_dot (l : List Char) (h : '.' ∉ l) : splitOnDot l = [l] := by
  induction l with
  | nil => rfl
  | cons c cs ih =>
    have hc : c ≠ '.' := fun hc => h (hc ▸ List.mem_cons_self c cs)
    have hcs : '.' ∉ cs := fun hm => h (List.mem_cons_of_mem c hm)
    simp only [splitOnDot, if_neg hc]
    rw [ih hcs]

/-- net.ParseIP inverts net.IP.String on the stored dotted quad. -/
lemma parseIPv4_renderIP (ip : IPv4) : parseIPv4 (renderIP ip) = some ip := by
  have hsplit : splitOnDot (renderIPChars ip) =
      [byteChars ip.a.val, byteChars ip.b.val, byteChars ip.c.val, byteChars ip.d.val] := by
    unfold renderIPChars
    rw [splitOnDot_append _ _ (dot_not_mem_byteChars ip.a),
        splitOnDot_append _ _ (dot_not_mem_byteChars ip.b),
        splitOnDot_append _ _ (dot_not_mem_byteChars ip.c),
        splitOnDot_no_dot _ (dot_not_mem_byteChars ip.d)]
  show parseIPv4Chars (renderIPChars ip) = some ip
  rw [parseIPv4Chars, hsplit]
  simp [parseByte_byteChars]

/-- A rendered octet is non-empty. -/
lemma byteChars_ne_nil (n : Nat) : byteChars n ≠ [] := by
  unfold byteChars
  split
  · simp
  · split <;> simp

/-- A stored IP string is non-empty. -/
lemma renderIP_ne_empty (ip : IPv4) : renderIP ip ≠ "" := by
  intro h
  have h2 := congrArg String.data h
  revert h2
  unfold renderIP renderIPChars
  cases hb : byteChars ip.a.val with
  | nil => exact absurd hb (byteChars_ne_nil ip.a.val)
  | cons c cs => simp

/-- meetsBoundConstraints passes exactly on an empty allow-list or a
listed value. -/
lemma meetsBoundConstraints_iff (v : String) (cs : List String) :
    meetsBoundConstraints v cs = true ↔ (cs = [] ∨ v ∈ cs) := by
  unfold meetsBoundConstraints
  cases cs with
  | nil => simp
  | cons x xs => simp [List.contains, List.elem_iff]

/-- meetsBoundConstraints fails exactly on a non-empty allow-list that
omits the value. -/
lemma meetsBoundConstraints_false_iff (v : String) (cs : List String) :
    meetsBoundConstraints v cs = false ↔ (cs ≠ [] ∧ v ∉ cs) := by
  rw [← Bool.not_eq_true, meetsBoundConstraints_iff]
  push_neg
  rfl
/-! ## Success inversion: which facts a successful login forces -/

lemma afterConstraints_success (env : LoginEnv) (req : LoginRequest) (role : RoleEntry) (config : Configuration) (pcfCert : PCFCertificate) (auth : Auth) (h : (afterConstraints env req role config pcfCert).2 = .success auth) : ∃ client, env.newPCFClient config = .ok client ∧ validateInventory client pcfCert = .ok () ∧ auth = mkAuth req.roleName role pcfCert := by
  unfold afterConstraints at h
  revert h
  cases hc : env.newPCFClient config with
  | error e => intro h; simp at h
  | ok client =>
    cases hv : validateInventory client pcfCert with
    | error e => intro h; simp [hv] at h
    | ok u => intro h; simp [hv] at h; exact ⟨client, rfl, by cases u; exact hv, h.symm⟩

lemma afterDecode_success (env : LoginEnv) (req : LoginRequest) (role : RoleEntry) (config : Configuration) (pcfCert : PCFCertificate) (auth : Auth) (h : (afterDecode env req role config pcfCert).2 = .success auth) : ∃ conn, req.connection = some conn ∧ validateConstraints role pcfCert conn.remoteAddr = .ok () ∧ (afterConstraints env req role config pcfCert).2 = .success auth := by
  unfold afterDecode at h
  revert h
  cases hconn : req.connection with
  | none => intro h; simp at h
  | some conn =>
    cases hv : validateConstraints role pcfCert conn.remoteAddr with
    | error e => intro h; simp [hv] at h
    | ok u => intro h; simp [hv] at h; exact ⟨conn, rfl, by cases u; exact hv, h⟩

lemma afterChain_success (env : LoginEnv) (req : LoginRequest) (role : RoleEntry) (config : Configuration) (signingCert : String) (auth : Auth) (h : (afterChain env req role config signingCert).2 = .success auth) : ∃ pcfCert, env.newPCFCertificateFromx509 signingCert = .ok pcfCert ∧ (afterDecode env req role config pcfCert).2 = .success auth := by
  unfold afterChain at h
  revert h
  cases hd : env.newPCFCertificateFromx509 signingCert with
  | error e => intro h; simp at h
  | ok pcfCert => intro h; exact ⟨pcfCert, rfl, h⟩

lemma afterVerify_success (env : LoginEnv) (req : LoginRequest) (role : RoleEntry) (config : Configuration) (intermediateCert : Option String) (identityCert : String) (signingCert : String) (auth : Auth) (h : (afterVerify env req role config intermediateCert identityCert signingCert).2 = .success auth) : env.validateChain config.identityCACertificates intermediateCert identityCert signingCert = .ok () ∧ (afterChain env req role config signingCert).2 = .success auth := by
  unfold afterVerify at h
  revert h
  cases hv : env.validateChain config.identityCACertificates intermediateCert identityCert signingCert with
  | error e => intro h; simp at h
  | ok u => intro h; exact ⟨by cases u; rfl, h⟩

lemma afterCerts_success (env : LoginEnv) (req : LoginRequest) (role : RoleEntry) (signingTime : Int) (config : Configuration) (intermediateCert : Option String) (identityCert : String) (auth : Auth) (h : (afterCerts env req role signingTime config intermediateCert identityCert).2 = .success auth) : ∃ signingCert, env.verify req.signature { signingTime := signingTime, role := req.roleName, cfInstanceCertContents := req.cfInstanceCert } = .ok signingCert ∧ (afterVerify env req role config intermediateCert identityCert signingCert).2 = .success auth := by
  unfold afterCerts at h
  revert h
  cases hv : env.verify req.signature { signingTime := signingTime, role := req.roleName, cfInstanceCertContents := req.cfInstanceCert } with
  | error e => intro h; simp at h
  | ok signingCert => intro h; exact ⟨signingCert, rfl, h⟩

lemma afterWindow_success (env : LoginEnv) (req : LoginRequest) (role : RoleEntry) (signingTime : Int) (config : Configuration) (auth : Auth) (h : (afterWindow env req role signingTime config).2 = .success auth) : ∃ intermediateCert identityCert, env.extractCertificates req.cfInstanceCert = .ok (intermediateCert, identityCert) ∧ (afterCerts env req role signingTime config intermediateCert identityCert).2 = .success auth := by
  unfold afterWindow at h
  revert h
  cases he : env.extractCertificates req.cfInstanceCert with
  | error e => intro h; simp at h
  | ok p =>
    obtain ⟨intermediateCert, identityCert⟩ := p
    intro h
    exact ⟨intermediateCert, identityCert, rfl, h⟩

lemma afterConfig_success (env : LoginEnv) (req : LoginRequest) (role : RoleEntry) (signingTime : Int) (config : Configuration) (auth : Auth) (h : (afterConfig env req role signingTime config).2 = .success auth) : timeWindowCheck signingTime req.timeReceived config.loginMaxSecOld config.loginMaxSecAhead = none ∧ (afterWindow env req role signingTime config).2 = .success auth := by
  unfold afterConfig at h
  revert h
  cases hw : timeWindowCheck signingTime req.timeReceived config.loginMaxSecOld config.loginMaxSecAhead with
  | some e => intro h; simp at h
  | none => intro h; exact ⟨rfl, h⟩

lemma afterInputs_success (env : LoginEnv) (req : LoginRequest) (role : RoleEntry) (signingTime : Int) (auth : Auth) (h : (afterInputs env req role signingTime).2 = .success auth) : ∃ config, env.getConfig = .ok (some config) ∧ (afterConfig env req role signingTime config).2 = .success auth := by
  unfold afterInputs at h
  revert h
  cases hc : env.getConfig with
  | error e => intro h; simp at h
  | ok oc =>
    cases oc with
    | none => intro h; simp at h
    | some config => intro h; exact ⟨config, rfl, h⟩

lemma afterCIDR_success (env : LoginEnv) (req : LoginRequest) (role : RoleEntry) (auth : Auth) (h : (afterCIDR env req role).2 = .success auth) : ∃ signingTime, req.signature ≠ Sig.empty ∧ req.cfInstanceCert ≠ "" ∧ req.signingTimeRaw ≠ "" ∧ parseTime env req.signingTimeRaw = .ok signingTime ∧ (afterInputs env req role signingTime).2 = .success auth := by
  unfold afterCIDR at h
  by_cases h1 : req.signature = Sig.empty
  · rw [if_pos h1] at h; simp at h
  · rw [if_neg h1] at h
    by_cases h2 : req.cfInstanceCert = ""
    · rw [if_pos h2] at h; simp at h
    · rw [if_neg h2] at h
      by_cases h3 : req.signingTimeRaw = ""
      · rw [if_pos h3] at h; simp at h
      · rw [if_neg h3] at h
        revert h
        cases hp : parseTime env req.signingTimeRaw with
        | error e => intro h; simp at h
        | ok signingTime => intro h; exact ⟨signingTime, h1, h2, h3, rfl, h⟩

lemma checkCIDR_cases (env : LoginEnv) (req : LoginRequest) (role : RoleEntry) : checkCIDR env req role = none ∨ checkCIDR env req role = some .denied := by
  unfold checkCIDR
  by_cases h1 : role.tokenBoundCIDRs.isEmpty
  · left; rw [if_pos h1]
  · rw [if_neg h1]
    cases req.connection with
    | none => right; rfl
    | some conn =>
      by_cases h2 : env.remoteAddrIsOk conn.remoteAddr role.tokenBoundCIDRs
      · left; simp [h2]
      · right; simp [h2]

lemma afterRole_success (env : LoginEnv) (req : LoginRequest) (role : RoleEntry) (auth : Auth) (h : (afterRole env req role).2 = .success auth) : checkCIDR env req role = none ∧ (afterCIDR env req role).2 = .success auth := by
  unfold afterRole at h
  revert h
  rcases checkCIDR_cases env req role with hc | hc <;> rw [hc]
  · intro h; exact ⟨rfl, h⟩
  · intro h; simp at h

lemma afterReceived_success (env : LoginEnv) (req : LoginRequest) (auth : Auth) (h : (afterReceived env req).2 = .success auth) : ∃ role, req.roleName ≠ "" ∧ env.getRole req.roleName = .ok (some role) ∧ (afterRole env req role).2 = .success auth := by
  unfold afterReceived at h
  by_cases h1 : req.roleName = ""
  · rw [if_pos h1] at h; simp at h
  · rw [if_neg h1] at h
    revert h
    cases hr : env.getRole req.roleName with
    | error e => intro h; simp at h
    | ok orole =>
      cases orole with
      | none => intro h; simp at h
      | some role => intro h; exact ⟨role, h1, rfl, h⟩

/-- A successful login forces every check to have passed: the exact
collection of facts recorded along the success path of
operationLoginUpdate. -/
lemma login_success_inv (env : LoginEnv) (req : LoginRequest) (auth : Auth) (h : (operationLoginUpdate env req).2 = .success auth) : ∃ role signingTime config intermediateCert identityCert signingCert pcfCert conn client, req.roleName ≠ "" ∧ env.getRole req.roleName = .ok (some role) ∧ checkCIDR env req role = none ∧ req.signature ≠ Sig.empty ∧ req.cfInstanceCert ≠ "" ∧ req.signingTimeRaw ≠ "" ∧ parseTime env req.signingTimeRaw = .ok signingTime ∧ env.getConfig = .ok (some config) ∧ timeWindowCheck signingTime req.timeReceived config.loginMaxSecOld config.loginMaxSecAhead = none ∧ env.extractCertificates req.cfInstanceCert = .ok (intermediateCert, identityCert) ∧ env.verify req.signature { signingTime := signingTime, role := req.roleName, cfInstanceCertContents := req.cfInstanceCert } = .ok signingCert ∧ env.validateChain config.identityCACertificates intermediateCert identityCert signingCert = .ok () ∧ env.newPCFCertificateFromx509 signingCert = .ok pcfCert ∧ req.connection = some conn ∧ validateConstraints role pcfCert conn.remoteAddr = .ok () ∧ env.newPCFClient config = .ok client ∧ validateInventory client pcfCert = .ok () ∧ auth = mkAuth req.roleName role pcfCert := by
  have h0 : (afterReceived env req).2 = .success auth := h
  obtain ⟨role, hrn, hrole, h1⟩ := afterReceived_success env req auth h0
  obtain ⟨hcidr, h2⟩ := afterRole_success env req role auth h1
  obtain ⟨signingTime, hs, hcf, hraw, hparse, h3⟩ := afterCIDR_success env req role auth h2
  obtain ⟨config, hconfig, h4⟩ := afterInputs_success env req role signingTime auth h3
  obtain ⟨hwin, h5⟩ := afterConfig_success env req role signingTime config auth h4
  obtain ⟨intermediateCert, identityCert, hext, h6⟩ := afterWindow_success env req role signingTime config auth h5
  obtain ⟨signingCert, hver, h7⟩ := afterCerts_success env req role signingTime config intermediateCert identityCert auth h6
  obtain ⟨hchain, h8⟩ := afterVerify_success env req role config intermediateCert identityCert signingCert auth h7
  obtain ⟨pcfCert, hdec, h9⟩ := afterChain_success env req role config signingCert auth h8
  obtain ⟨conn, hconn, hvc, h10⟩ := afterDecode_success env req role config pcfCert auth h9
  obtain ⟨client, hcli, hvi, hauth⟩ := afterConstraints_success env req role config pcfCert auth h10
  exact ⟨role, signingTime, config, intermediateCert, identityCert, signingCert, pcfCert, conn, client, hrn, hrole, hcidr, hs, hcf, hraw, hparse, hconfig, hwin, hext, hver, hchain, hdec, hconn, hvc, hcli, hvi, hauth⟩
/-! ## Trace ordering -/

lemma afterConstraints_order (env : LoginEnv) (req : LoginRequest) (role : RoleEntry) (config : Configuration) (pcfCert : PCFCertificate) : isPrefixB (afterConstraints env req role config pcfCert).1 [Step.inventoryCrossChecked, Step.issued] = true ∧ ((afterConstraints env req role config pcfCert).1 = [Step.inventoryCrossChecked, Step.issued] ↔ ∃ a, (afterConstraints env req role config pcfCert).2 = .success a) := by
  unfold afterConstraints
  cases hc : env.newPCFClient config with
  | error e => simp [hc, isPrefixB]
  | ok client =>
    cases hv : validateInventory client pcfCert with
    | error e => simp [hc, hv, isPrefixB]
    | ok u => simp [hc, hv, isPrefixB]

lemma afterDecode_order (env : LoginEnv) (req : LoginRequest) (role : RoleEntry) (config : Configuration) (pcfCert : PCFCertificate) : isPrefixB (afterDecode env req role config pcfCert).1 [Step.constraintsChecked, Step.inventoryCrossChecked, Step.issued] = true ∧ ((afterDecode env req role config pcfCert).1 = [Step.constraintsChecked, Step.inventoryCrossChecked, Step.issued] ↔ ∃ a, (afterDecode env req role config pcfCert).2 = .success a) := by
  unfold afterDecode
  cases hconn : req.connection with
  | none => simp [hconn, isPrefixB]
  | some conn =>
    cases hv : validateConstraints role pcfCert conn.remoteAddr with
    | error e => simp [hconn, hv, isPrefixB]
    | ok u =>
      have ih := afterConstraints_order env req role config pcfCert
      simpa [hconn, hv, isPrefixB] using ih

lemma afterChain_order (env : LoginEnv) (req : LoginRequest) (role : RoleEntry) (config : Configuration) (signingCert : String) : isPrefixB (afterChain env req role config signingCert).1 [Step.identityDecoded, Step.constraintsChecked, Step.inventoryCrossChecked, Step.issued] = true ∧ ((afterChain env req role config signingCert).1 = [Step.identityDecoded, Step.constraintsChecked, Step.inventoryCrossChecked, Step.issued] ↔ ∃ a, (afterChain env req role config signingCert).2 = .success a) := by
  unfold afterChain
  cases hd : env.newPCFCertificateFromx509 signingCert with
  | error e => simp [hd, isPrefixB]
  | ok pcfCert =>
    have ih := afterDecode_order env req role config pcfCert
    simpa [hd, isPrefixB] using ih

lemma afterVerify_order (env : LoginEnv) (req : LoginRequest) (role : RoleEntry) (config : Configuration) (intermediateCert : Option String) (identityCert : String) (signingCert : String) : isPrefixB (afterVerify env req role config intermediateCert identityCert signingCert).1 [Step.chainValidated, Step.identityDecoded, Step.constraintsChecked, Step.inventoryCrossChecked, Step.issued] = true ∧ ((afterVerify env req role config intermediateCert identityCert signingCert).1 = [Step.chainValidated, Step.identityDecoded, Step.constraintsChecked, Step.inventoryCrossChecked, Step.issued] ↔ ∃ a, (afterVerify env req role config intermediateCert identityCert signingCert).2 = .success a) := by
  unfold afterVerify
  cases hv : env.validateChain config.identityCACertificates intermediateCert identityCert signingCert with
  | error e => simp [hv, isPrefixB]
  | ok u =>
    have ih := afterChain_order env req role config signingCert
    simpa [hv, isPrefixB] using ih

lemma afterCerts_order (env : LoginEnv) (req : LoginRequest) (role : RoleEntry) (signingTime : Int) (config : Configuration) (intermediateCert : Option String) (identityCert : String) : isPrefixB (afterCerts env req role signingTime config intermediateCert identityCert).1 [Step.signatureVerified, Step.chainValidated, Step.identityDecoded, Step.constraintsChecked, Step.inventoryCrossChecked, Step.issued] = true ∧ ((afterCerts env req role signingTime config intermediateCert identityCert).1 = [Step.signatureVerified, Step.chainValidated, Step.identityDecoded, Step.constraintsChecked, Step.inventoryCrossChecked, Step.issued] ↔ ∃ a, (afterCerts env req role signingTime config intermediateCert identityCert).2 = .success a) := by
  unfold afterCerts
  cases hv : env.verify req.signature { signingTime := signingTime, role := req.roleName, cfInstanceCertContents := req.cfInstanceCert } with
  | error e => simp [hv, isPrefixB]
  | ok signingCert =>
    have ih := afterVerify_order env req role config intermediateCert identityCert signingCert
    simpa [hv, isPrefixB] using ih

lemma afterWindow_order (env : LoginEnv) (req : LoginRequest) (role : RoleEntry) (signingTime : Int) (config : Configuration) : isPrefixB (afterWindow env req role signingTime config).1 [Step.certsExtracted, Step.signatureVerified, Step.chainValidated, Step.identityDecoded, Step.constraintsChecked, Step.inventoryCrossChecked, Step.issued] = true ∧ ((afterWindow env req role signingTime config).1 = [Step.certsExtracted, Step.signatureVerified, Step.chainValidated, Step.identityDecoded, Step.constraintsChecked, Step.inventoryCrossChecked, Step.issued] ↔ ∃ a, (afterWindow env req role signingTime config).2 = .success a) := by
  unfold afterWindow
  cases he : env.extractCertificates req.cfInstanceCert with
  | error e => simp [he, isPrefixB]
  | ok p =>
    obtain ⟨intermediateCert, identityCert⟩ := p
    have ih := afterCerts_order env req role signingTime config intermediateCert identityCert
    simpa [he, isPrefixB] using ih

lemma afterConfig_order (env : LoginEnv) (req : LoginRequest) (role : RoleEntry) (signingTime : Int) (config : Configuration) : isPrefixB (afterConfig env req role signingTime config).1 [Step.timeWindowChecked, Step.certsExtracted, Step.signatureVerified, Step.chainValidated, Step.identityDecoded, Step.constraintsChecked, Step.inventoryCrossChecked, Step.issued] = true ∧ ((afterConfig env req role signingTime config).1 = [Step.timeWindowChecked, Step.certsExtracted, Step.signatureVerified, Step.chainValidated, Step.identityDecoded, Step.constraintsChecked, Step.inventoryCrossChecked, Step.issued] ↔ ∃ a, (afterConfig env req role signingTime config).2 = .success a) := by
  unfold afterConfig
  cases hw : timeWindowCheck signingTime req.timeReceived config.loginMaxSecOld config.loginMaxSecAhead with
  | some e => simp [hw, isPrefixB]
  | none =>
    have ih := afterWindow_order env req role signingTime config
    simpa [hw, isPrefixB] using ih

lemma afterInputs_order (env : LoginEnv) (req : LoginRequest) (role : RoleEntry) (signingTime : Int) : isPrefixB (afterInputs env req role signingTime).1 [Step.configResolved, Step.timeWindowChecked, Step.certsExtracted, Step.signatureVerified, Step.chainValidated, Step.identityDecoded, Step.constraintsChecked, Step.inventoryCrossChecked, Step.issued] = true ∧ ((afterInputs env req role signingTime).1 = [Step.configResolved, Step.timeWindowChecked, Step.certsExtracted, Step.signatureVerified, Step.chainValidated, Step.identityDecoded, Step.constraintsChecked, Step.inventoryCrossChecked, Step.issued] ↔ ∃ a, (afterInputs env req role signingTime).2 = .success a) := by
  unfold afterInputs
  cases hc : env.getConfig with
  | error e => simp [hc, isPrefixB]
  | ok oc =>
    cases oc with
    | none => simp [hc, isPrefixB]
    | some config =>
      have ih := afterConfig_order env req role signingTime config
      simpa [hc, isPrefixB] using ih

lemma afterCIDR_order (env : LoginEnv) (req : LoginRequest) (role : RoleEntry) : isPrefixB (afterCIDR env req role).1 [Step.signatureRead, Step.configResolved, Step.timeWindowChecked, Step.certsExtracted, Step.signatureVerified, Step.chainValidated, Step.identityDecoded, Step.constraintsChecked, Step.inventoryCrossChecked, Step.issued] = true ∧ ((afterCIDR env req role).1 = [Step.signatureRead, Step.configResolved, Step.timeWindowChecked, Step.certsExtracted, Step.signatureVerified, Step.chainValidated, Step.identityDecoded, Step.constraintsChecked, Step.inventoryCrossChecked, Step.issued] ↔ ∃ a, (afterCIDR env req role).2 = .success a) := by
  unfold afterCIDR
  by_cases h1 : req.signature = Sig.empty
  · simp [h1, isPrefixB]
  · rw [if_neg h1]
    by_cases h2 : req.cfInstanceCert = ""
    · simp [h2, isPrefixB]
    · rw [if_neg h2]
      by_cases h3 : req.signingTimeRaw = ""
      · simp [h3, isPrefixB]
      · rw [if_neg h3]
        cases hp : parseTime env req.signingTimeRaw with
        | error e => simp [hp, isPrefixB]
        | ok signingTime =>
          have ih := afterInputs_order env req role signingTime
          simpa [hp, isPrefixB] using ih

lemma afterRole_order (env : LoginEnv) (req : LoginRequest) (role : RoleEntry) : isPrefixB (afterRole env req role).1 [Step.cidrChecked, Step.signatureRead, Step.configResolved, Step.timeWindowChecked, Step.certsExtracted, Step.signatureVerified, Step.chainValidated, Step.identityDecoded, Step.constraintsChecked, Step.inventoryCrossChecked, Step.issued] = true ∧ ((afterRole env req role).1 = [Step.cidrChecked, Step.signatureRead, Step.configResolved, Step.timeWindowChecked, Step.certsExtracted, Step.signatureVerified, Step.chainValidated, Step.identityDecoded, Step.constraintsChecked, Step.inventoryCrossChecked, Step.issued] ↔ ∃ a, (afterRole env req role).2 = .success a) := by
  unfold afterRole
  rcases checkCIDR_cases env req role with hc | hc <;> rw [hc]
  · have ih := afterCIDR_order env req role
    simpa [isPrefixB] using ih
  · simp [isPrefixB]

lemma afterReceived_order (env : LoginEnv) (req : LoginRequest) : isPrefixB (afterReceived env req).1 [Step.roleResolved, Step.cidrChecked, Step.signatureRead, Step.configResolved, Step.timeWindowChecked, Step.certsExtracted, Step.signatureVerified, Step.chainValidated, Step.identityDecoded, Step.constraintsChecked, Step.inventoryCrossChecked, Step.issued] = true ∧ ((afterReceived env req).1 = [Step.roleResolved, Step.cidrChecked, Step.signatureRead, Step.configResolved, Step.timeWindowChecked, Step.certsExtracted, Step.signatureVerified, Step.chainValidated, Step.identityDecoded, Step.constraintsChecked, Step.inventoryCrossChecked, Step.issued] ↔ ∃ a, (afterReceived env req).2 = .success a) := by
  unfold afterReceived
  by_cases h1 : req.roleName = ""
  · simp [h1, isPrefixB]
  · rw [if_neg h1]
    cases hr : env.getRole req.roleName with
    | error e => simp [hr, isPrefixB]
    | ok orole =>
      cases orole with
      | none => simp [hr, isPrefixB]
      | some role =>
        have ih := afterRole_order env req role
        simpa [hr, isPrefixB] using ih

/-! ## Claim theorems -/

/-- C4, counterexample: on a fully successful login call the handler
reaches configResolved strictly before timeWindowChecked, so the
claimed state order (time-window check before configuration
resolution) is not the order the code performs. -/
theorem c4_counterexample :
    (operationLoginUpdate okEnv okReq).1 = loginStepOrder ∧
    loginStepOrder ≠ claimedStepOrder ∧
    loginStepOrder.indexOf Step.configResolved < loginStepOrder.indexOf Step.timeWindowChecked ∧
    claimedStepOrder.indexOf Step.timeWindowChecked < claimedStepOrder.indexOf Step.configResolved := by
  refine ⟨by decide, by decide, by decide, by decide⟩

/-- C4 (amended): a login call performs its steps in exactly the order
receipt time, role resolution, bound-CIDR check, request-field reads,
configuration resolution, time-window check, certificate extraction,
signature verification, chain validation, identity decoding, constraint
check, inventory cross-check, issuance: every run's trace is an initial
segment of that order, and the full order is reached exactly on
success (any failure stops the trace at the failing step, single-shot,
no retries). -/
theorem c4_login_step_order (env : LoginEnv) (req : LoginRequest) :
    isPrefixB (operationLoginUpdate env req).1 loginStepOrder = true ∧
    ((operationLoginUpdate env req).1 = loginStepOrder ↔ ∃ a, (operationLoginUpdate env req).2 = .success a) := by
  have ih := afterReceived_order env req
  unfold operationLoginUpdate loginStepOrder
  simpa [isPrefixB] using ih

/-- C5: the replay window accepts exactly the signing times inside the
inclusive window, and the two strict violations produce the matching
errors carrying the offending timestamps and the configured bound. -/
theorem c5_replay_window (signingTime timeReceived maxSecOld maxSecAhead : Int)
    (hold : 0 ≤ maxSecOld) (hahead : 0 ≤ maxSecAhead) :
    (timeWindowCheck signingTime timeReceived maxSecOld maxSecAhead = none ↔
      timeReceived - maxSecOld ≤ signingTime ∧ signingTime ≤ timeReceived + maxSecAhead) ∧
    (signingTime < timeReceived - maxSecOld →
      timeWindowCheck signingTime timeReceived maxSecOld maxSecAhead =
        some (.requestTooOld signingTime timeReceived maxSecOld)) ∧
    (timeReceived + maxSecAhead < signingTime →
      timeWindowCheck signingTime timeReceived maxSecOld maxSecAhead =
        some (.requestTooFarInFuture signingTime timeReceived maxSecAhead)) := by
  unfold timeWindowCheck
  refine ⟨?_, fun h => ?_, fun h => ?_⟩
  · by_cases h1 : signingTime < timeReceived - maxSecOld
    · rw [if_pos h1]; simp; omega
    · rw [if_neg h1]
      by_cases h2 : timeReceived + maxSecAhead < signingTime
      · rw [if_pos h2]; simp; omega
      · rw [if_neg h2]; simp; omega
  · rw [if_pos h]
  · rw [if_neg (by omega), if_pos h]

/-- C5 witness: the boundaries are inclusive and each strict violation
yields its error. -/
theorem c5_witness :
    timeWindowCheck 700 1000 300 60 = none ∧
    timeWindowCheck 1060 1000 300 60 = none ∧
    timeWindowCheck 699 1000 300 60 = some (.requestTooOld 699 1000 300) ∧
    timeWindowCheck 1061 1000 300 60 = some (.requestTooFarInFuture 1061 1000 60) :=
  ⟨(c5_replay_window 700 1000 300 60 (by decide) (by decide)).1.mpr (by decide),
   (c5_replay_window 1060 1000 300 60 (by decide) (by decide)).1.mpr (by decide),
   (c5_replay_window 699 1000 300 60 (by decide) (by decide)).2.1 (by decide),
   (c5_replay_window 1061 1000 300 60 (by decide) (by decide)).2.2 (by decide)⟩

/-- C10: when the resolved role lists bound CIDRs and the request
carries no connection information, login is rejected with permission
denied (the check fails closed). -/
theorem c10_cidr_fail_closed (env : LoginEnv) (req : LoginRequest) (role : RoleEntry)
    (hrn : req.roleName ≠ "")
    (hrole : env.getRole req.roleName = .ok (some role))
    (hcidrs : role.tokenBoundCIDRs ≠ [])
    (hconn : req.connection = none) :
    (operationLoginUpdate env req).2 = .denied := by
  have hcheck : checkCIDR env req role = some .denied := by
    unfold checkCIDR
    rw [if_neg (by simp [hcidrs]), hconn]
  unfold operationLoginUpdate afterReceived afterRole
  simp [hrn, hrole, hcheck]

/-- C10 witness: the sample environment with a CIDR-bound role and a
connectionless request is denied. -/
theorem c10_witness : (operationLoginUpdate okEnvCIDR okReqNoConn).2 = .denied :=
  c10_cidr_fail_closed okEnvCIDR okReqNoConn cidrRole (by decide) rfl (by decide) rfl

/-- C3: a renewal whose stored metadata is missing a required field
fails with an error, but a stored ip_address that cannot be parsed does
not: the reconstruction error raised for it is discarded by the source
(the err assigned at line 250 is shadowed by the err of the next if
statement) and the handler dereferences the nil certificate instead of
failing with the reconstruction error. -/
theorem c3_renew_malformed_ip_ignored :
    pathLoginRenew okEnv { auth := badRenewAuth, connection := some { remoteAddr := "10.0.0.1" } } = RenewResult.crash ∧
    renewReconstructIdentity badRenewAuth.internalData badRenewAuth.aliasMetadata =
      .error "identity field missing: unparsable IP address" ∧
    pathLoginRenew okEnv { auth := missingRenewAuth, connection := some { remoteAddr := "10.0.0.1" } } =
      RenewResult.fatal "unable to retrieve instance_id during renewal" := by
  refine ⟨by decide, by rfl, by decide⟩

/-- C1: an AuthDecision is produced only if every check passed: a
successful login forces role resolution, configuration resolution, the
replay-window check, signature verification, certificate extraction,
chain validation, identity decoding and the full constraint-and-
inventory validation to have each returned success. -/
theorem c1_auth_requires_all_checks (env : LoginEnv) (req : LoginRequest) (auth : Auth)
    (h : (operationLoginUpdate env req).2 = .success auth) :
    ∃ role signingTime config intermediateCert identityCert signingCert pcfCert conn,
      env.getRole req.roleName = .ok (some role) ∧
      env.getConfig = .ok (some config) ∧
      timeWindowCheck signingTime req.timeReceived config.loginMaxSecOld config.loginMaxSecAhead = none ∧
      env.verify req.signature { signingTime := signingTime, role := req.roleName, cfInstanceCertContents := req.cfInstanceCert } = .ok signingCert ∧
      env.extractCertificates req.cfInstanceCert = .ok (intermediateCert, identityCert) ∧
      env.validateChain config.identityCACertificates intermediateCert identityCert signingCert = .ok () ∧
      env.newPCFCertificateFromx509 signingCert = .ok pcfCert ∧
      req.connection = some conn ∧
      validate env config role pcfCert conn.remoteAddr = .ok () := by
  obtain ⟨role, st, config, ic, idc, sc, pcfCert, conn, client, hrn, hrole, hcidr, hs, hcf, hraw,
    hparse, hconfig, hwin, hext, hver, hchain, hdec, hconn, hvc, hcli, hvi, hauth⟩ :=
    login_success_inv env req auth h
  refine ⟨role, st, config, ic, idc, sc, pcfCert, conn, hrole, hconfig, hwin, hver, hext, hchain, hdec, hconn, ?_⟩
  unfold validate
  simp [hvc, hcli, hvi]

/-- C1 witness: the sample login succeeds and therefore every check
passed on it. -/
theorem c1_witness :
    (operationLoginUpdate okEnv okReq).2 = .success okAuth ∧
    (∃ role signingTime config intermediateCert identityCert signingCert pcfCert conn,
      okEnv.getRole okReq.roleName = .ok (some role) ∧
      okEnv.getConfig = .ok (some config) ∧
      timeWindowCheck signingTime okReq.timeReceived config.loginMaxSecOld config.loginMaxSecAhead = none ∧
      okEnv.verify okReq.signature { signingTime := signingTime, role := okReq.roleName, cfInstanceCertContents := okReq.cfInstanceCert } = .ok signingCert ∧
      okEnv.extractCertificates okReq.cfInstanceCert = .ok (intermediateCert, identityCert) ∧
      okEnv.validateChain config.identityCACertificates intermediateCert identityCert signingCert = .ok () ∧
      okEnv.newPCFCertificateFromx509 signingCert = .ok pcfCert ∧
      okReq.connection = some conn ∧
      validate okEnv config role pcfCert conn.remoteAddr = .ok ()) :=
  ⟨by decide, c1_auth_requires_all_checks okEnv okReq okAuth (by decide)⟩

/-- C2: under the modelled signature verifier, any request whose
signature is not the signature of the presented payload under the
presented bundle's key — wrong key, tampered role, tampered certificate
text or tampered signing time — is rejected with the one generic
signature failure, a constant carrying no information about which field
was tampered with, and never with a policy or input error. -/
theorem c2_signature_failure_generic (env : LoginEnv) (req : LoginRequest) (role : RoleEntry)
    (signingTime : Int) (config : Configuration) (intermediateCert : Option String) (identityCert : String)
    (keyOf certOf : String → String)
    (hverify : env.verify = signaturesVerify keyOf certOf)
    (hrn : req.roleName ≠ "")
    (hrole : env.getRole req.roleName = .ok (some role))
    (hcidr : checkCIDR env req role = none)
    (hs : req.signature ≠ Sig.empty)
    (hcf : req.cfInstanceCert ≠ "")
    (hraw : req.signingTimeRaw ≠ "")
    (hparse : parseTime env req.signingTimeRaw = .ok signingTime)
    (hconfig : env.getConfig = .ok (some config))
    (hwin : timeWindowCheck signingTime req.timeReceived config.loginMaxSecOld config.loginMaxSecAhead = none)
    (hext : env.extractCertificates req.cfInstanceCert = .ok (intermediateCert, identityCert))
    (htamper : req.signature ≠ Sig.mk (keyOf req.cfInstanceCert)
      { signingTime := signingTime, role := req.roleName, cfInstanceCertContents := req.cfInstanceCert }) :
    (operationLoginUpdate env req).2 = .errResp (.signatureError signatureInvalidMsg) := by
  unfold operationLoginUpdate afterReceived afterRole afterCIDR afterInputs afterConfig afterWindow afterCerts
  simp [hrn, hrole, hcidr, hs, hcf, hraw, hparse, hconfig, hwin, hext, hverify, signaturesVerify, htamper]

/-- C2 witness: the sample request with a signature covering a
different role name is rejected with the generic signature failure. -/
theorem c2_witness :
    (operationLoginUpdate okEnv tamperedReq).2 = .errResp (.signatureError signatureInvalidMsg) :=
  c2_signature_failure_generic okEnv tamperedReq okRole 1000 okConfig (some "intermediate-cert")
    (certOfSample "pem-bundle") keyOfSample certOfSample rfl (by decide) rfl rfl (by decide)
    (by decide) (by decide) rfl rfl (by decide) rfl (by decide)

/-- C6: the caller's remote address matches exactly when, stripped of
any slash-delimited subnet-mask suffix, it parses to the certificate
identity's IP address; with IP matching enabled a non-match makes
validation fail with the IP-mismatch error, and with disable_ip_matching
set the remote address plays no role in the outcome. -/
theorem c6_ip_matching (env : LoginEnv) (config : Configuration) (role : RoleEntry)
    (cert : PCFCertificate) (addr addr2 : String) :
    (matchesIPAddress addr cert.ipAddress = true ↔ parseIPv4 (stripMask addr) = some cert.ipAddress) ∧
    (role.disableIPMatching = false → matchesIPAddress addr cert.ipAddress = false →
      validate env config role cert addr = .error .ipMismatch) ∧
    (role.disableIPMatching = true →
      validate env config role cert addr = validate env config role cert addr2) := by
  refine ⟨?_, fun hd hm => ?_, fun hd => ?_⟩
  · unfold matchesIPAddress
    cases hp : parseIPv4 (stripMask addr) with
    | none => simp [hp]
    | some reqIP => simp [hp, eq_comm]
  · unfold validate validateConstraints
    rw [if_pos ⟨hd, hm⟩]
  · unfold validate validateConstraints
    simp [hd]

/-- C6 witness: a mismatching caller address is rejected with the
IP-mismatch error, and a masked matching address matches. -/
theorem c6_witness :
    validate okEnv okConfig okRole okCert "10.9.9.9" = .error ValidateErr.ipMismatch ∧
    matchesIPAddress "10.0.0.1/32" okCert.ipAddress = true :=
  ⟨(c6_ip_matching okEnv okConfig okRole okCert "10.9.9.9" "x").2.1 (by decide) (by decide),
   (c6_ip_matching okEnv okConfig okRole okCert "10.0.0.1/32" "x").1.mpr (by decide)⟩

/-- C7: an empty allow-list is unrestricted, a non-empty allow-list
passes exactly the listed values, and for each of the instance, app,
org and space fields a non-empty allow-list omitting the identity's
value makes constraint validation fail with the violation naming that
field. -/
theorem c7_bound_constraints (role : RoleEntry) (cert : PCFCertificate) (addr : String)
    (v : String) (cs : List String) :
    (meetsBoundConstraints v [] = true) ∧
    (meetsBoundConstraints v cs = true ↔ (cs = [] ∨ v ∈ cs)) ∧
    ((role.disableIPMatching = true ∨ matchesIPAddress addr cert.ipAddress = true) →
      role.boundInstanceIDs ≠ [] → cert.instanceID ∉ role.boundInstanceIDs →
      validateConstraints role cert addr = .error (.instanceConstraint cert.instanceID role.boundInstanceIDs)) ∧
    ((role.disableIPMatching = true ∨ matchesIPAddress addr cert.ipAddress = true) →
      meetsBoundConstraints cert.instanceID role.boundInstanceIDs = true →
      role.boundAppIDs ≠ [] → cert.appID ∉ role.boundAppIDs →
      validateConstraints role cert addr = .error (.appConstraint cert.appID role.boundAppIDs)) ∧
    ((role.disableIPMatching = true ∨ matchesIPAddress addr cert.ipAddress = true) →
      meetsBoundConstraints cert.instanceID role.boundInstanceIDs = true →
      meetsBoundConstraints cert.appID role.boundAppIDs = true →
      role.boundOrgIDs ≠ [] → cert.orgID ∉ role.boundOrgIDs →
      validateConstraints role cert addr = .error (.orgConstraint cert.orgID role.boundOrgIDs)) ∧
    ((role.disableIPMatching = true ∨ matchesIPAddress addr cert.ipAddress = true) →
      meetsBoundConstraints cert.instanceID role.boundInstanceIDs = true →
      meetsBoundConstraints cert.appID role.boundAppIDs = true →
      meetsBoundConstraints cert.orgID role.boundOrgIDs = true →
      role.boundSpaceIDs ≠ [] → cert.spaceID ∉ role.boundSpaceIDs →
      validateConstraints role cert addr = .error (.spaceConstraint cert.spaceID role.boundSpaceIDs)) := by
  have hip : ∀ _ : role.disableIPMatching = true ∨ matchesIPAddress addr cert.ipAddress = true,
      ¬(role.disableIPMatching = false ∧ matchesIPAddress addr cert.ipAddress = false) := by
    rintro (h | h) <;> simp [h]
  refine ⟨rfl, meetsBoundConstraints_iff v cs, fun h0 hne hni => ?_, fun h0 hmi hne hna => ?_,
    fun h0 hmi hma hne hno => ?_, fun h0 hmi hma hmo hne hns => ?_⟩
  · have h1 := (meetsBoundConstraints_false_iff _ _).mpr ⟨hne, hni⟩
    unfold validateConstraints
    rw [if_neg (hip h0), if_pos h1]
  · have h2 := (meetsBoundConstraints_false_iff _ _).mpr ⟨hne, hna⟩
    unfold validateConstraints
    rw [if_neg (hip h0), if_neg (by simp [hmi]), if_pos h2]
  · have h3 := (meetsBoundConstraints_false_iff _ _).mpr ⟨hne, hno⟩
    unfold validateConstraints
    rw [if_neg (hip h0), if_neg (by simp [hmi]), if_neg (by simp [hma]), if_pos h3]
  · have h4 := (meetsBoundConstraints_false_iff _ _).mpr ⟨hne, hns⟩
    unfold validateConstraints
    rw [if_neg (hip h0), if_neg (by simp [hmi]), if_neg (by simp [hma]), if_neg (by simp [hmo]), if_pos h4]

/-- C7 witness: bound_app_ids of app-1 rejects a certificate for app-2
with the app-constraint violation, and an empty allow-list passes. -/
theorem c7_witness :
    validateConstraints roleApp1 certApp2 "10.0.0.1" = .error (.appConstraint "app-2" ["app-1"]) ∧
    meetsBoundConstraints "anything" [] = true :=
  by
  refine ⟨?_, ?_⟩
  · exact (c7_bound_constraints roleApp1 certApp2 "10.0.0.1" "x" []).2.2.2.1 (Or.inr (by decide)) (by decide) (by decide) (by decide)
  · exact (c7_bound_constraints roleApp1 certApp2 "10.0.0.1" "anything" []).1

/-- C8: the inventory cross-check fails closed: a transport error on
the app lookup is surfaced as a rejection, a returned app whose guid
differs from the requested ID is rejected, an app record with zero
instances is rejected with the no-live-instances error, and the check
passes only when every lookup succeeded and every returned record is
consistent with the certificate. -/
theorem c8_inventory_fail_closed (client : PCFClient) (cert : PCFCertificate) :
    (∀ e, client.appByGuid cert.appID = .error e →
      validateInventory client cert = .error (.appLookupErr e)) ∧
    (∀ app, client.appByGuid cert.appID = .ok app → app.guid ≠ cert.appID →
      validateInventory client cert = .error (.appGuidMismatch cert.appID app.guid)) ∧
    (∀ app, client.appByGuid cert.appID = .ok app → app.guid = cert.appID →
      app.spaceGuid = cert.spaceID → app.instances = 0 →
      validateInventory client cert = .error .noLiveInstances) ∧
    (validateInventory client cert = .ok () → ∃ app org space,
      client.appByGuid cert.appID = .ok app ∧ app.guid = cert.appID ∧
      app.spaceGuid = cert.spaceID ∧ 0 < app.instances ∧
      client.getOrgByGuid cert.orgID = .ok org ∧ org.guid = cert.orgID ∧
      client.getSpaceByGuid cert.spaceID = .ok space ∧ space.guid = cert.spaceID ∧
      space.organizationGuid = cert.orgID) := by
  refine ⟨fun e he => ?_, fun app happ hg => ?_, fun app happ hg hs h0 => ?_, fun h => ?_⟩
  · unfold validateInventory
    simp [he]
  · unfold validateInventory
    simp [happ, hg]
  · unfold validateInventory
    simp [happ, hg, hs, h0]
  · unfold validateInventory at h
    revert h
    cases happ : client.appByGuid cert.appID with
    | error e => intro h; simp [happ] at h
    | ok app =>
      intro h
      simp only [happ] at h
      by_cases h1 : app.guid ≠ cert.appID
      · rw [if_pos h1] at h; simp at h
      · rw [if_neg h1] at h
        push_neg at h1
        by_cases h2 : app.spaceGuid ≠ cert.spaceID
        · rw [if_pos h2] at h; simp at h
        · rw [if_neg h2] at h
          push_neg at h2
          by_cases h3 : app.instances ≤ 0
          · rw [if_pos h3] at h; simp at h
          · rw [if_neg h3] at h
            push_neg at h3
            revert h
            cases horg : client.getOrgByGuid cert.orgID with
            | error e => intro h; simp [horg] at h
            | ok org =>
              intro h
              simp only [horg] at h
              by_cases h4 : org.guid ≠ cert.orgID
              · rw [if_pos h4] at h; simp at h
              · rw [if_neg h4] at h
                push_neg at h4
                revert h
                cases hspace : client.getSpaceByGuid cert.spaceID with
                | error e => intro h; simp [hspace] at h
                | ok space =>
                  intro h
                  simp only [hspace] at h
                  by_cases h5 : space.guid ≠ cert.spaceID
                  · rw [if_pos h5] at h; simp at h
                  · rw [if_neg h5] at h
                    push_neg at h5
                    by_cases h6 : space.organizationGuid ≠ cert.orgID
                    · rw [if_pos h6] at h; simp at h
                    · rw [if_neg h6] at h
                      push_neg at h6
                      exact ⟨app, org, space, rfl, h1, h2, h3, rfl, h4, rfl, h5, h6⟩

/-- C8 witness: a transport failure and a zero-instance app record are
each rejected on the sample certificate. -/
theorem c8_witness :
    validateInventory downClient okCert = .error (.appLookupErr "connection refused") ∧
    validateInventory zeroClient okCert = .error .noLiveInstances := by
  refine ⟨?_, ?_⟩
  · exact (c8_inventory_fail_closed downClient okCert).1 "connection refused" rfl
  · exact (c8_inventory_fail_closed zeroClient okCert).2.2.1 { guid := "app-1", spaceGuid := "space-1", instances := 0 } rfl rfl rfl rfl

/-- C9: reconstructing the identity from the metadata maps a
successful login stores (role, instance_id, ip_address in internal
data; org_id, app_id, space_id in alias metadata) yields exactly the
certificate identity the login validated, provided the identity
decoder only produces non-empty fields. -/
theorem c9_metadata_roundtrip (env : LoginEnv) (req : LoginRequest) (auth : Auth)
    (hfields : ∀ c cert, env.newPCFCertificateFromx509 c = .ok cert →
      cert.instanceID ≠ "" ∧ cert.appID ≠ "" ∧ cert.orgID ≠ "" ∧ cert.spaceID ≠ "")
    (h : (operationLoginUpdate env req).2 = .success auth) :
    ∃ cert,
      auth.internalData = [("role", req.roleName), ("instance_id", cert.instanceID), ("ip_address", renderIP cert.ipAddress)] ∧
      auth.aliasMetadata = [("org_id", cert.orgID), ("app_id", cert.appID), ("space_id", cert.spaceID)] ∧
      renewReconstructIdentity auth.internalData auth.aliasMetadata = .ok cert := by
  obtain ⟨role, st, config, ic, idc, sc, pcfCert, conn, client, hrn, hrole, hcidr, hs, hcf, hraw,
    hparse, hconfig, hwin, hext, hver, hchain, hdec, hconn, hvc, hcli, hvi, hauth⟩ :=
    login_success_inv env req auth h
  obtain ⟨hi, ha, ho, hsp⟩ := hfields sc pcfCert hdec
  subst hauth
  refine ⟨pcfCert, rfl, rfl, ?_⟩
  unfold renewReconstructIdentity renewFetchFields getOrErrI getOrErrS newPCFCertificate mkAuth
  simp [List.lookup, hi, ha, ho, hsp, renderIP_ne_empty, parseIPv4_renderIP]

/-- C9 witness: the sample login's stored metadata reconstructs to the
sample certificate identity. -/
theorem c9_witness :
    (operationLoginUpdate okEnv okReq).2 = .success okAuth ∧
    ∃ cert,
      okAuth.internalData = [("role", okReq.roleName), ("instance_id", cert.instanceID), ("ip_address", renderIP cert.ipAddress)] ∧
      okAuth.aliasMetadata = [("org_id", cert.orgID), ("app_id", cert.appID), ("space_id", cert.spaceID)] ∧
      renewReconstructIdentity okAuth.internalData okAuth.aliasMetadata = .ok cert := by
  refine ⟨by decide, ?_⟩
  refine c9_metadata_roundtrip okEnv okReq okAuth ?_ (by decide)
  intro c cert hc
  simp only [okEnv] at hc
  by_cases hcc : c = certOfSample "pem-bundle"
  · rw [if_pos hcc] at hc
    injection hc with hc2
    subst hc2
    exact ⟨by decide, by decide, by decide, by decide⟩
  · rw [if_neg hcc] at hc
    exact Except.noConfusion hc
